import Mathlib

/-!
Verification development for the edgerouter-backup tool
(`src/edgerouter-backup.py`).

The Python source is shallowly embedded: every function of the backup
pipeline that the specification talks about is translated into an
executable Lean definition.  The process environment (SSH connectivity,
SFTP transfer outcome, git operation outcomes, the on-disk repository
tree, the clock, free disk space) is passed in explicitly through an
`Env` record of oracles; Python exceptions become explicit outcome
fields (`raised`) or `Option` values.  Filenames are plain strings and
the filename-parsing code of `cleanup_old_backups` (Path.stem,
str.split, str.rsplit, datetime.strptime) is translated character by
character, as is the semantics of `pathlib.Path.glob` on the literal
pattern `backup-*.\x7btar.gz,cfg\x7d` (pathlib performs no brace
expansion: the braces and the comma are matched literally).
-/

/-! ## List-of-characters string helpers (Python string operations) -/

/-- `listStartsWith l p` is true when `p` is an initial segment of `l`. -/
def listStartsWith : List Char → List Char → Bool
  | _, [] => true
  | [], _ :: _ => false
  | a :: as, b :: bs => a == b && listStartsWith as bs

/-- `listEndsWith l s` is true when `s` is a final segment of `l`. -/
def listEndsWith (l s : List Char) : Bool :=
  listStartsWith l.reverse s.reverse

/-- Remainder of `l` after the first occurrence of the non-empty
separator `sep`; `none` when `sep` does not occur.  Used to translate
the `[1]` indexing of Python `str.split(sep)`. -/
def afterFirstOccur (sep : List Char) : List Char → Option (List Char)
  | [] => if sep.isEmpty then some [] else none
  | c :: cs =>
    if listStartsWith (c :: cs) sep then some ((c :: cs).drop sep.length)
    else afterFirstOccur sep cs

/-- Segment of `l` before the first occurrence of `sep` (all of `l`
when `sep` does not occur). -/
def beforeFirstOccur (sep : List Char) : List Char → List Char
  | [] => []
  | c :: cs =>
    if listStartsWith (c :: cs) sep then []
    else c :: beforeFirstOccur sep cs

/-- Python `str.split(sep)` for a one-character separator. -/
def splitOnChar (sep : Char) : List Char → List (List Char)
  | [] => [[]]
  | c :: cs =>
    if c == sep then [] :: splitOnChar sep cs
    else
      match splitOnChar sep cs with
      | [] => [[c]]
      | p :: ps => (c :: p) :: ps

/-- Index of the last `.` in the list, `none` when there is no dot.
Translates Python `str.rfind`. -/
def lastDotIdx (cs : List Char) : Option Nat :=
  match cs.reverse.findIdx? (fun c => c == '.') with
  | none => none
  | some r => some (cs.length - 1 - r)

/-- Numeric value of a list of decimal digit characters. -/
def digitsVal (cs : List Char) : Nat :=
  cs.foldl (fun acc c => acc * 10 + (c.toNat - 48)) 0

/-! ## Calendar arithmetic (Python datetime / timedelta) -/

/-- Gregorian leap-year test, as used by Python `datetime`. -/
def isLeapYear (y : Nat) : Bool :=
  (y % 4 == 0 && y % 100 != 0) || y % 400 == 0

/-- Number of days in month `m` of year `y` (months are 1-based). -/
def daysInMonth (y m : Nat) : Nat :=
  if m == 2 then (if isLeapYear y then 29 else 28)
  else if m == 4 || m == 6 || m == 9 || m == 11 then 30
  else 31

/-- Days from the civil epoch 0000-03-01 to year `y`, month `m`,
day `d` of the proleptic Gregorian calendar (valid for `y ≥ 1`,
`1 ≤ m ≤ 12`); standard days-from-civil computation, mirroring the
ordering Python `datetime` subtraction obeys. -/
def daysFromCivil (y m d : Nat) : Nat :=
  let yy := if m ≤ 2 then y - 1 else y
  let era := yy / 400
  let yoe := yy % 400
  let mp := (m + 9) % 12
  let doy := (153 * mp + 2) / 5 + d - 1
  let doe := yoe * 365 + yoe / 4 - yoe / 100 + doy
  era * 146097 + doe

/-- A Python `datetime.datetime`: a calendar date plus the seconds
elapsed since midnight. -/
structure PyDateTime where
  year : Nat
  month : Nat
  day : Nat
  secsOfDay : Nat
deriving DecidableEq

/-- Seconds since the civil epoch; `datetime` comparison and
`timedelta` subtraction act on this value. -/
def toSecs (dt : PyDateTime) : Int :=
  (daysFromCivil dt.year dt.month dt.day : Int) * 86400 + dt.secsOfDay

/-- Zero-padded two-digit rendering, Python `f"{n:02d}"`. -/
def pad2 (n : Nat) : String :=
  if n < 10 then "0" ++ toString n else toString n

/-- Zero-padded four-digit rendering, `strftime("%Y")`. -/
def pad4 (n : Nat) : String :=
  if n < 10 then "000" ++ toString n
  else if n < 100 then "00" ++ toString n
  else if n < 1000 then "0" ++ toString n
  else toString n

/-- `datetime.strftime("%Y-%m-%d")`. -/
def dateStr (dt : PyDateTime) : String :=
  pad4 dt.year ++ "-" ++ pad2 dt.month ++ "-" ++ pad2 dt.day

/-! ## Filename handling of `cleanup_old_backups` -/

/-- Semantics of `month_dir.glob("backup-*.\x7btar.gz,cfg\x7d")`:
`pathlib` performs no brace expansion, so `*` matches any character
sequence of the filename and the suffix `.\x7btar.gz,cfg\x7d` is
required literally (filenames produced by `scandir` contain no path
separator). -/
def matchesBackupGlob (name : String) : Bool :=
  let cs := name.toList
  listStartsWith cs ("backup-".toList) &&
    listEndsWith (cs.drop 7) (".\x7btar.gz,cfg\x7d".toList)

/-- `pathlib.PurePath.stem`: the filename minus its last suffix; the
suffix is `name[i:]` for the last dot index `i` when `0 < i < len-1`,
otherwise empty. -/
def pyStem (cs : List Char) : List Char :=
  match lastDotIdx cs with
  | none => cs
  | some i => if 0 < i && i < cs.length - 1 then cs.take i else cs

/-- Python `s.rsplit(".", 1)[0]`: everything before the last dot, or
the whole string when there is no dot. -/
def beforeLastDot (cs : List Char) : List Char :=
  match lastDotIdx cs with
  | none => cs
  | some i => cs.take i

/-- `datetime.strptime(s, "%Y-%m-%d")`: `%Y` consumes exactly four
digits, `%m` and `%d` one or two digits; month must be 1..12, day
1..days-in-month, year at least `datetime.MINYEAR = 1`.  Returns the
parsed (year, month, day) triple or `none` on `ValueError`. -/
def strptimeYmd (cs : List Char) : Option (Nat × Nat × Nat) :=
  match splitOnChar '-' cs with
  | [ys, ms, ds] =>
    if ys.length == 4 && ys.all Char.isDigit &&
       (ms.length == 1 || ms.length == 2) && ms.all Char.isDigit &&
       (ds.length == 1 || ds.length == 2) && ds.all Char.isDigit then
      let y := digitsVal ys
      let m := digitsVal ms
      let d := digitsVal ds
      if 1 ≤ y && 1 ≤ m && m ≤ 12 && 1 ≤ d && d ≤ daysInMonth y m then
        some (y, m, d)
      else none
    else none
  | _ => none

/-- The date-extraction of `cleanup_old_backups`:
`backup_file.stem.split("backup-")[1].rsplit(".", 1)[0]` followed by
`strptime`; `none` models the exceptions the per-file handler
catches. -/
def parseBackupFileDate (name : String) : Option (Nat × Nat × Nat) :=
  let stem := pyStem name.toList
  match afterFirstOccur ("backup-".toList) stem with
  | none => none
  | some rest =>
    let part1 := beforeFirstOccur ("backup-".toList) rest
    strptimeYmd (beforeLastDot part1)

/-! ## The on-disk repository tree -/

/-- A month-level directory entry of the repository root: its name,
whether it is a directory, and the names of the files inside it. -/
structure MonthDir where
  name : String
  isDir : Bool
  files : List String
deriving DecidableEq

/-- A year-level entry of the repository root. -/
structure YearDir where
  name : String
  isDir : Bool
  months : List MonthDir
deriving DecidableEq

/-- The repository root directory as seen by `cleanup_old_backups`. -/
structure RepoTree where
  years : List YearDir
deriving DecidableEq

/-- The glob pattern `[0-9][0-9][0-9][0-9]`: exactly four digits. -/
def is4Digits (s : String) : Bool :=
  s.toList.length == 4 && s.toList.all Char.isDigit

/-- The glob pattern `[0-9][0-9]`: exactly two digits. -/
def is2Digits (s : String) : Bool :=
  s.toList.length == 2 && s.toList.all Char.isDigit

/-! ## Configuration and environment oracles -/

/-- The configuration fields the backup pipeline reads
(`config["backup"]["formats"]`, `config["backup"]["retention_days"]`,
`config["github"]["auto_push"]`). -/
structure Config where
  formats : List String
  retention_days : Nat
  auto_push : Bool
deriving DecidableEq

/-- Kind of a Python exception relevant to the git phase: a
`git.GitCommandError` versus any other exception. -/
inductive PyExc
  | gitCommandError
  | otherError
deriving DecidableEq

/-- A downloaded artifact as `validate_backup_files` observes it:
its format tag, whether the file exists on disk, its size, whether
`tarfile.open` succeeds on it, and whether its text contains a
`set ` or `delete ` configuration marker. -/
structure Artifact where
  fmt : String
  onDisk : Bool
  size : Nat
  tarOk : Bool
  hasMarker : Bool
deriving DecidableEq

/-- Environment oracles for one run: clock, disk, network and git
outcomes, and the repository tree scanned by the retention pass. -/
structure Env where
  availBytes : Nat
  connectOk : Bool
  fetchTarOk : Bool
  tarSize : Nat
  tarOk : Bool
  repoDirty : Bool
  isDirtyRaises : Bool
  openExc : Option PyExc
  addExc : Option PyExc
  commitExc : Option PyExc
  pushExc : Option PyExc
  now : PyDateTime
  tree : RepoTree
  scanFails : Bool
  unlinkFails : String → Bool

/-! ## check_disk_space -/

/-- `check_disk_space(path, min_mb=100)`: the float comparison
`available_mb < min_mb` over `bytes / 2^20` is exact for byte counts
below 2^53, so it is modelled exactly over the byte count. -/
def check_disk_space (availBytes : Nat) (minMB : Nat) : Bool :=
  if availBytes < minMB * 1024 * 1024 then false else true

/-! ## validate_backup_files -/

/-- The per-file checks of the loop body of `validate_backup_files`:
existence, non-emptiness, `tarfile.open` for `tar.gz`, and the
`set `/`delete ` marker for `cfg`; any raised `ValueError` is caught
by the surrounding handler, which returns `False`. -/
def validateFile (a : Artifact) : Bool :=
  a.onDisk && a.size != 0 &&
    (if a.fmt == "tar.gz" then a.tarOk else true) &&
    (if a.fmt == "cfg" then a.hasMarker else true)

/-- `validate_backup_files(backup_files)`: `True` exactly when every
artifact of the batch passes; an empty batch passes vacuously. -/
def validate_backup_files (files : List Artifact) : Bool :=
  files.all validateFile

/-! ## download_config -/

/-- Outcome of `download_config`: whether `tempfile.mkdtemp()` ran,
whether the function raised (re-raised by its handler), and the
artifacts it returned. -/
structure DlTrace where
  mkdtempRan : Bool
  raised : Bool
  files : List Artifact
deriving DecidableEq

/-- The `tar.gz` artifact as downloaded over SFTP (after a successful
`sftp.get` the local file exists). -/
def tarArtifact (env : Env) : Artifact :=
  { fmt := "tar.gz", onDisk := true, size := env.tarSize,
    tarOk := env.tarOk, hasMarker := false }

/-- `download_config(ssh, config, test_mode)`: creates the temporary
directory, then fetches the `tar.gz` artifact when that format is
configured; the plain-text `cfg` branch is commented out in the
source, so no `cfg` artifact is ever produced.  A failure of the
remote command or the SFTP transfer is logged and re-raised. -/
def download_config (cfg : Config) (env : Env) : DlTrace :=
  if cfg.formats.contains "tar.gz" then
    if env.fetchTarOk then ⟨true, false, [tarArtifact env]⟩
    else ⟨true, true, []⟩
  else ⟨true, false, []⟩

/-! ## save_to_repo -/

/-- `save_to_repo(backup_files, config)`: the paths (relative to the
repository root) the artifacts are copied to; the year directory is
`str(now.year)`, the month directory is zero-padded, the filename is
`backup-<%Y-%m-%d>.<fmt>`. -/
def save_to_repo (files : List Artifact) (now : PyDateTime) : List String :=
  files.map (fun a =>
    toString now.year ++ "/" ++ pad2 now.month ++ "/backup-" ++
      dateStr now ++ "." ++ a.fmt)

/-! ## check_for_changes and git_commit_and_push -/

/-- `check_for_changes(repo)`: `repo.is_dirty(untracked_files=True)`
guarded by a handler that fails open (assumes changed) when the
check itself raises. -/
def check_for_changes (env : Env) : Bool :=
  if env.isDirtyRaises then true else env.repoDirty

/-- Commit message for a changed working tree. -/
def changedMsg (dt : PyDateTime) : String :=
  "Backup " ++ dateStr dt ++ " - Configuration changed"

/-- Commit message for an unchanged working tree. -/
def noChangesMsg (dt : PyDateTime) : String :=
  "Backup " ++ dateStr dt ++ " - No changes"

/-- Observable outcome of `git_commit_and_push`: the commit message if
a commit was created, whether an exception propagated to the caller,
and the value returned (the `changed` flag at return time). -/
structure GitTrace where
  committed : Option String
  raised : Bool
  retChanged : Bool
deriving DecidableEq

/-- The two `except` clauses of `git_commit_and_push`: a
`GitCommandError` anywhere in the `try` block is caught, logged as a
push warning, and the current `changed` value is returned; any other
exception is re-raised. -/
def gitExceptHandler (e : PyExc) (changed : Bool) (committed : Option String) :
    GitTrace :=
  match e with
  | .gitCommandError => ⟨committed, false, changed⟩
  | .otherError => ⟨committed, true, changed⟩

/-- `git_commit_and_push(config, changed, test_mode)`: open or
initialize the repository, return early in test mode, stage all files
(`repo.git.add(".")`), recompute `changed` from `check_for_changes`,
create the commit unconditionally, then push when `auto_push` is set.
Each step may raise per the environment oracles; the exception flows
through `gitExceptHandler`. -/
def git_commit_and_push (cfg : Config) (env : Env) (changed : Bool)
    (test_mode : Bool) : GitTrace :=
  match env.openExc with
  | some e => gitExceptHandler e changed none
  | none =>
    if test_mode then ⟨none, false, changed⟩
    else
      match env.addExc with
      | some e => gitExceptHandler e changed none
      | none =>
        let changed2 := if check_for_changes env then changed else false
        let msg := if changed2 then changedMsg env.now else noChangesMsg env.now
        match env.commitExc with
        | some e => gitExceptHandler e changed2 none
        | none =>
          if cfg.auto_push then
            match env.pushExc with
            | some e => gitExceptHandler e changed2 (some msg)
            | none => ⟨some msg, false, changed2⟩
          else ⟨some msg, false, changed2⟩

/-! ## cleanup_old_backups -/

/-- The body of the innermost `try` of `cleanup_old_backups` for one
globbed file: parse the embedded date (unparsable names are skipped
with a warning), compare to the cutoff, and for strictly older files
unlink (a failing unlink is caught, leaving the counter untouched) or,
in test mode, only count.  Returns (file remains on disk, counter
increment). -/
def processFile (test_mode : Bool) (cutoff : Int) (uf : String → Bool)
    (name : String) : Bool × Nat :=
  match parseBackupFileDate name with
  | none => (true, 0)
  | some (y, m, d) =>
    if (daysFromCivil y m d : Int) * 86400 < cutoff then
      if test_mode then (true, 1)
      else if uf name then (true, 0)
      else (false, 1)
    else (true, 0)

/-- The file loop of `cleanup_old_backups` over one month directory:
only names matching the glob pattern are processed; the others are
left untouched.  Returns the counter contribution and the files that
remain. -/
def cleanupFiles (tm : Bool) (cutoff : Int) (uf : String → Bool) :
    List String → Nat × List String
  | [] => (0, [])
  | f :: rest =>
    let r := cleanupFiles tm cutoff uf rest
    if matchesBackupGlob f then
      let p := processFile tm cutoff uf f
      (p.2 + r.1, if p.1 then f :: r.2 else r.2)
    else (r.1, f :: r.2)

/-- The month loop: only two-digit directory entries are entered. -/
def cleanupMonth (tm : Bool) (cutoff : Int) (uf : String → Bool)
    (m : MonthDir) : Nat × MonthDir :=
  if is2Digits m.name && m.isDir then
    let r := cleanupFiles tm cutoff uf m.files
    (r.1, ⟨m.name, m.isDir, r.2⟩)
  else (0, m)

/-- The year loop: only four-digit directory entries are entered. -/
def cleanupYear (tm : Bool) (cutoff : Int) (uf : String → Bool)
    (y : YearDir) : Nat × YearDir :=
  if is4Digits y.name && y.isDir then
    let rs := y.months.map (cleanupMonth tm cutoff uf)
    ((rs.map Prod.fst).sum, ⟨y.name, y.isDir, rs.map Prod.snd⟩)
  else (0, y)

/-- `cleanup_old_backups(config, test_mode)`: the cutoff is
`datetime.now() - timedelta(days=retention_days)`; the whole scan is
wrapped in a handler that logs a warning and returns 0 on any
exception (modelled as the scan failing before any traversal).
Returns the removal count and the tree that remains. -/
def cleanup_old_backups (cfg : Config) (env : Env) (test_mode : Bool) :
    Nat × RepoTree :=
  if env.scanFails then (0, env.tree)
  else
    let cutoff := toSecs env.now - (cfg.retention_days : Int) * 86400
    let rs := env.tree.years.map (cleanupYear test_mode cutoff env.unlinkFails)
    ((rs.map Prod.fst).sum, ⟨rs.map Prod.snd⟩)

/-! ## run_backup and the CLI exit code -/

/-- Observable trace of one `run_backup` invocation: whether
`connect_ssh` was called, whether `tempfile.mkdtemp` ran, whether the
`finally` block removed the temporary directory, the relative paths
written under the repository root, the commit message (if a commit was
created), whether the retention pass ran, the repository tree after
the run, and the boolean the function returned. -/
structure RunTrace where
  connectAttempted : Bool
  mkdtempRan : Bool
  tempRemoved : Bool
  stored : List String
  commitMsg : Option String
  cleanupRan : Bool
  treeAfter : RepoTree
  success : Bool

/-- `run_backup(config, test_mode)`, translated branch by branch:
preflight disk check (raising aborts before any network call), SSH
connect, download (a failure inside `download_config` happens after
`mkdtemp` but before `run_backup`'s `temp_dir` variable is assigned,
so the `finally` block cannot remove the directory), validation,
the test-mode early return, save, commit/push, retention, success.
The `finally` block removes the temporary directory exactly when the
`temp_dir` variable was assigned. -/
def run_backup (cfg : Config) (env : Env) (test_mode : Bool) : RunTrace :=
  if check_disk_space env.availBytes 100 = false then
    ⟨false, false, false, [], none, false, env.tree, false⟩
  else if env.connectOk = false then
    ⟨true, false, false, [], none, false, env.tree, false⟩
  else if (download_config cfg env).raised = true then
    ⟨true, true, false, [], none, false, env.tree, false⟩
  else if validate_backup_files (download_config cfg env).files = false then
    ⟨true, true, true, [], none, false, env.tree, false⟩
  else if test_mode = true then
    ⟨true, true, true, [], none, false, env.tree, true⟩
  else if (git_commit_and_push cfg env true false).raised = true then
    ⟨true, true, true, save_to_repo (download_config cfg env).files env.now,
      (git_commit_and_push cfg env true false).committed, false, env.tree, false⟩
  else
    ⟨true, true, true, save_to_repo (download_config cfg env).files env.now,
      (git_commit_and_push cfg env true false).committed, true,
      (cleanup_old_backups cfg env false).2, true⟩

/-- The exit code of the `run` / `test` CLI commands:
`sys.exit(0 if success else 1)`. -/
def commandExit (cfg : Config) (env : Env) (test_mode : Bool) : Nat :=
  if (run_backup cfg env test_mode).success then 0 else 1

/-! ## Concrete instances used by the claim theorems -/

/-- A baseline configuration: only the archive format, 30-day
retention, auto-push on. -/
def baseCfg : Config := ⟨["tar.gz"], 30, true⟩

/-- A baseline healthy environment: ample disk, all operations
succeed, clean working tree, empty repository tree. -/
def baseEnv : Env :=
  { availBytes := 1000000000, connectOk := true, fetchTarOk := true,
    tarSize := 1000, tarOk := true, repoDirty := false,
    isDirtyRaises := false, openExc := none, addExc := none,
    commitExc := none, pushExc := none,
    now := ⟨2026, 1, 25, 0⟩, tree := ⟨[]⟩, scanFails := false,
    unlinkFails := fun _ => false }

/-- Retention scenario of claim C1: files dated one day before the
cutoff, on the cutoff, and one day after it. -/
def c1Tree : RepoTree :=
  ⟨[⟨"2026", true,
     [⟨"01", true,
       ["backup-2026-01-19.tar.gz", "backup-2026-01-20.tar.gz",
        "backup-2026-01-21.tar.gz"]⟩]⟩]⟩

/-- Five-day retention for the C1 scenario. -/
def c1Cfg : Config := ⟨["tar.gz"], 5, true⟩

/-- Environment for the C1 scenario: now = 2026-01-25 00:00:00, so the
cutoff is 2026-01-20 00:00:00. -/
def c1Env : Env := { baseEnv with tree := c1Tree }

/-- Configuration with both declared formats, for claim C2. -/
def c2Cfg : Config := ⟨["tar.gz", "cfg"], 30, true⟩

/-- Environment for claim C5: staging (`repo.git.add(".")`) raises a
`GitCommandError`. -/
def c5Env : Env := { baseEnv with addExc := some PyExc.gitCommandError }

/-- Environment for claim C7: the SFTP fetch fails after the temporary
directory has been created. -/
def c7Env : Env := { baseEnv with fetchTarOk := false }

/-- Environment for claim C10: the directory scan itself fails. -/
def c10Env : Env := { c1Env with scanFails := true }

/-- Environment for claim C4: the push raises a `GitCommandError`. -/
def c4Env : Env := { baseEnv with pushExc := some PyExc.gitCommandError }

/-- Environment for the amended claim C5: staging raises a
non-`GitCommandError` exception. -/
def c5bEnv : Env := { baseEnv with addExc := some PyExc.otherError }

/-- Environment for claim C8: no free disk space at all. -/
def c8Env : Env := { baseEnv with availBytes := 0 }

/-- Configuration for claim C9: the configured formats yield no
downloaded artifact (the `cfg` retrieval branch is disabled in the
source). -/
def c9Cfg : Config := ⟨["cfg"], 30, true⟩

/-! ## Helper lemmas -/

/-- The two commit messages are distinct strings (their lengths
differ). -/
lemma changedMsg_ne_noChangesMsg (dt : PyDateTime) :
    changedMsg dt ≠ noChangesMsg dt := by
  intro h
  have h2 := congrArg String.length h
  simp only [changedMsg, noChangesMsg, String.length_append] at h2
  have e1 : (" - Configuration changed" : String).length = 24 := rfl
  have e2 : (" - No changes" : String).length = 13 := rfl
  rw [e1, e2] at h2
  omega

/-- When repository open, staging and commit all succeed, a commit is
created, whatever the push outcome, and its message is determined by
`check_for_changes`. -/
lemma git_committed_of_ok (cfg : Config) (env : Env)
    (hopen : env.openExc = none) (hadd : env.addExc = none)
    (hcommit : env.commitExc = none) :
    (git_commit_and_push cfg env true false).committed =
      some (if check_for_changes env then changedMsg env.now
            else noChangesMsg env.now) := by
  unfold git_commit_and_push
  rw [hopen, hadd, hcommit]
  cases hc : check_for_changes env <;>
    cases hap : cfg.auto_push <;>
    cases hp : env.pushExc <;>
    simp [gitExceptHandler, hc, hap, hp] <;>
    rename_i e <;> cases e <;> simp [gitExceptHandler]

/-- When repository open, staging and commit all succeed and the push
does not raise a non-`GitCommandError` exception, no exception
propagates out of `git_commit_and_push`. -/
lemma git_not_raised_of_ok (cfg : Config) (env : Env)
    (hopen : env.openExc = none) (hadd : env.addExc = none)
    (hcommit : env.commitExc = none)
    (hpush : env.pushExc ≠ some PyExc.otherError) :
    (git_commit_and_push cfg env true false).raised = false := by
  unfold git_commit_and_push
  rw [hopen, hadd, hcommit]
  cases hc : check_for_changes env <;>
    cases hap : cfg.auto_push <;>
    cases hp : env.pushExc <;>
    simp [gitExceptHandler, hc, hap, hp] <;>
    rename_i e <;> cases e <;> simp [gitExceptHandler] <;>
    exact hpush (by rw [hp])

/-- A non-`GitCommandError` exception during staging or commit
propagates out of `git_commit_and_push`. -/
lemma git_raised_of_other (cfg : Config) (env : Env)
    (hopen : env.openExc = none)
    (hfail : env.addExc = some PyExc.otherError ∨
      (env.addExc = none ∧ env.commitExc = some PyExc.otherError)) :
    (git_commit_and_push cfg env true false).raised = true := by
  unfold git_commit_and_push
  rw [hopen]
  rcases hfail with hadd | ⟨hadd, hcommit⟩
  · rw [hadd]; simp [gitExceptHandler]
  · rw [hadd, hcommit]
    cases hc : check_for_changes env <;> simp [gitExceptHandler, hc]

/-- When preflight, connection, download and validation succeed, a
non-test `run_backup` reaches the git phase and its trace is decided
by the `git_commit_and_push` outcome. -/
lemma run_backup_reaches_git (cfg : Config) (env : Env)
    (h1 : check_disk_space env.availBytes 100 = true)
    (h2 : env.connectOk = true)
    (h3 : (download_config cfg env).raised = false)
    (h4 : validate_backup_files (download_config cfg env).files = true) :
    run_backup cfg env false =
      if (git_commit_and_push cfg env true false).raised = true then
        ⟨true, true, true,
          save_to_repo (download_config cfg env).files env.now,
          (git_commit_and_push cfg env true false).committed, false,
          env.tree, false⟩
      else
       ⟨true, true, true,
          save_to_repo (download_config cfg env).files env.now,
          (git_commit_and_push cfg env true false).committed, true,
          (cleanup_old_backups cfg env false).2, true⟩ := by
  unfold run_backup
  simp only [h1, h2, h3, h4]
  simp

/-! ## Claim theorems -/

/-- Claim C1 (code bug, evaluation at the failing input): with
retention 5 days and now = 2026-01-25 00:00:00, a tree holding backups
dated 2026-01-19 (one day before the cutoff), 2026-01-20 (the cutoff)
and 2026-01-21 removes nothing and returns 0, in real mode and in
dry-run alike, because the pathlib glob pattern with literal braces
matches no real backup filename; the fourth conjunct shows that the
date logic itself would have removed the strictly-older file had the
glob matched it. -/
theorem c1_retention_glob_eval :
    cleanup_old_backups c1Cfg c1Env false = (0, c1Tree) ∧
    cleanup_old_backups c1Cfg c1Env true = (0, c1Tree) ∧
    matchesBackupGlob "backup-2026-01-19.tar.gz" = false ∧
    processFile false (toSecs c1Env.now - (c1Cfg.retention_days : Int) * 86400)
      c1Env.unlinkFails "backup-2026-01-19.tar.gz" = (false, 1) ∧
    processFile false (toSecs c1Env.now - (c1Cfg.retention_days : Int) * 86400)
      c1Env.unlinkFails "backup-2026-01-20.tar.gz" = (true, 0) := by
  decide

/-- Claim C2 (code bug, evaluation at the failing input): with both
declared formats configured, `download_config` produces only the
`tar.gz` artifact — the `cfg` retrieval branch is commented out — so
only one file per day is fetched instead of one per format. -/
theorem c2_download_single_format_eval :
    (download_config c2Cfg baseEnv).files.map Artifact.fmt = ["tar.gz"] ∧
    (download_config c2Cfg baseEnv).files.length = 1 ∧
    c2Cfg.formats.length = 2 := by
  decide

/-- Claim C3: in every non-dry-run that reaches the commit step with
the local git operations succeeding and change detection not erroring,
a commit is created unconditionally and its message is the
changed-message exactly when the working tree differs from the last
commit (the two messages being distinct strings). -/
theorem c3_commit_unconditional_message (cfg : Config) (env : Env)
    (h1 : check_disk_space env.availBytes 100 = true)
    (h2 : env.connectOk = true)
    (h3 : (download_config cfg env).raised = false)
    (h4 : validate_backup_files (download_config cfg env).files = true)
    (hopen : env.openExc = none) (hadd : env.addExc = none)
    (hcommit : env.commitExc = none)
    (hdet : env.isDirtyRaises = false) :
    (run_backup cfg env false).commitMsg =
      some (if env.repoDirty then changedMsg env.now else noChangesMsg env.now) ∧
    changedMsg env.now ≠ noChangesMsg env.now := by
  have hmsg := git_committed_of_ok cfg env hopen hadd hcommit
  rw [run_backup_reaches_git cfg env h1 h2 h3 h4]
  refine ⟨?_, changedMsg_ne_noChangesMsg env.now⟩
  by_cases hr : (git_commit_and_push cfg env true false).raised = true <;>
    simp [hr, hmsg, check_for_changes, hdet]

/-- Claim C3 witness: the healthy baseline run commits with the
no-changes message. -/
theorem c3_commit_unconditional_message_witness :
    (run_backup baseCfg baseEnv false).commitMsg =
      some (if baseEnv.repoDirty then changedMsg baseEnv.now
            else noChangesMsg baseEnv.now) ∧
    changedMsg baseEnv.now ≠ noChangesMsg baseEnv.now :=
  c3_commit_unconditional_message baseCfg baseEnv (by decide) (by decide)
    (by decide) (by decide) rfl rfl rfl rfl

/-- Claim C4: when every step through the commit succeeds and the push
raises a `GitCommandError`, the failure is degraded: the run still
succeeds (exit 0), a commit exists, and the retention step still
runs. -/
theorem c4_push_failure_degraded (cfg : Config) (env : Env)
    (h1 : check_disk_space env.availBytes 100 = true)
    (h2 : env.connectOk = true)
    (h3 : (download_config cfg env).raised = false)
    (h4 : validate_backup_files (download_config cfg env).files = true)
    (hopen : env.openExc = none) (hadd : env.addExc = none)
    (hcommit : env.commitExc = none)
    (hpush : env.pushExc = some PyExc.gitCommandError) :
    (run_backup cfg env false).success = true ∧
    (run_backup cfg env false).cleanupRan = true ∧
    (run_backup cfg env false).commitMsg ≠ none ∧
    commandExit cfg env false = 0 := by
  have hr := git_not_raised_of_ok cfg env hopen hadd hcommit
    (by rw [hpush]; intro hx; cases hx)
  have hmsg := git_committed_of_ok cfg env hopen hadd hcommit
  have hrb := run_backup_reaches_git cfg env h1 h2 h3 h4
  unfold commandExit
  rw [hrb]
  simp [hr, hmsg]

/-- Claim C4 witness: the baseline run with a failing push still exits
0 and prunes. -/
theorem c4_push_failure_degraded_witness :
    (run_backup baseCfg c4Env false).success = true ∧
    (run_backup baseCfg c4Env false).cleanupRan = true ∧
    (run_backup baseCfg c4Env false).commitMsg ≠ none ∧
    commandExit baseCfg c4Env false = 0 :=
  c4_push_failure_degraded baseCfg c4Env (by decide) (by decide) (by decide)
    (by decide) rfl rfl rfl rfl

/-- Claim C5 counterexample: a staging failure that raises a
`GitCommandError` is caught by the same handler as push failures, so
the run succeeds and exits 0, contradicting the claim that every
staging failure aborts the run. -/
theorem c5_staging_gitcommanderror_succeeds :
    c5Env.addExc = some PyExc.gitCommandError ∧
    (run_backup baseCfg c5Env false).success = true ∧
    commandExit baseCfg c5Env false = 0 := by
  decide

/-- Claim C5 as amended: a staging or commit failure that raises a
non-`GitCommandError` exception aborts the run: the outcome is failure
and the exit code is non-zero. -/
theorem c5_nongit_local_failure_aborts (cfg : Config) (env : Env)
    (h1 : check_disk_space env.availBytes 100 = true)
    (h2 : env.connectOk = true)
    (h3 : (download_config cfg env).raised = false)
    (h4 : validate_backup_files (download_config cfg env).files = true)
    (hopen : env.openExc = none)
    (hfail : env.addExc = some PyExc.otherError ∨
      (env.addExc = none ∧ env.commitExc = some PyExc.otherError)) :
    (run_backup cfg env false).success = false ∧
    commandExit cfg env false = 1 := by
  have hr := git_raised_of_other cfg env hopen hfail
  have hrb := run_backup_reaches_git cfg env h1 h2 h3 h4
  unfold commandExit
  rw [hrb]
  simp [hr]

/-- Claim C5 witness (amended form): a staging failure with an
ordinary exception makes the run fail with exit 1. -/
theorem c5_nongit_local_failure_aborts_witness :
    (run_backup baseCfg c5bEnv false).success = false ∧
    commandExit baseCfg c5bEnv false = 1 :=
  c5_nongit_local_failure_aborts baseCfg c5bEnv (by decide) (by decide)
    (by decide) (by decide) rfl (Or.inl rfl)

/-- Claim C6: every dry-run, whatever the retrieval or validation
outcome, stores no file under the repository root, creates no commit,
runs no retention pass, and leaves the repository tree untouched. -/
theorem c6_dry_run_no_mutation (cfg : Config) (env : Env) :
    (run_backup cfg env true).stored = [] ∧
    (run_backup cfg env true).commitMsg = none ∧
    (run_backup cfg env true).cleanupRan = false ∧
    (run_backup cfg env true).treeAfter = env.tree := by
  unfold run_backup
  split
  · exact ⟨rfl, rfl, rfl, rfl⟩
  split
  · exact ⟨rfl, rfl, rfl, rfl⟩
  split
  · exact ⟨rfl, rfl, rfl, rfl⟩
  split
  · exact ⟨rfl, rfl, rfl, rfl⟩
  exact ⟨rfl, rfl, rfl, rfl⟩

/-- Claim C7 (code bug, evaluation at the failing input): when the
fetch fails inside `download_config` after `mkdtemp`, the temporary
workspace was created but the cleanup in the `finally` block does not
remove it, because the exception propagates before `run_backup`
assigns its `temp_dir` variable. -/
theorem c7_temp_workspace_leak_eval :
    (run_backup baseCfg c7Env false).mkdtempRan = true ∧
    (run_backup baseCfg c7Env false).tempRemoved = false ∧
    (run_backup baseCfg c7Env false).success = false := by
  decide

/-- Claim C8: when the free space at the repository root is below the
100 MB minimum, the run fails with exit 1 before any network activity:
no SSH connection is attempted and no download workspace is created. -/
theorem c8_preflight_before_network (cfg : Config) (env : Env) (tm : Bool)
    (h : env.availBytes < 100 * 1024 * 1024) :
    (run_backup cfg env tm).connectAttempted = false ∧
    (run_backup cfg env tm).mkdtempRan = false ∧
    (run_backup cfg env tm).success = false ∧
    commandExit cfg env tm = 1 := by
  have hc : check_disk_space env.availBytes 100 = false := by
    unfold check_disk_space
    rw [if_pos h]
  unfold commandExit run_backup
  rw [hc]
  simp

/-- Claim C8 witness: with zero bytes free the run exits 1 without
connecting. -/
theorem c8_preflight_before_network_witness :
    (run_backup baseCfg c8Env false).connectAttempted = false ∧
    (run_backup baseCfg c8Env false).mkdtempRan = false ∧
    (run_backup baseCfg c8Env false).success = false ∧
    commandExit baseCfg c8Env false = 1 :=
  c8_preflight_before_network baseCfg c8Env false (by decide)

/-- Claim C9: a batch with no artifact validates vacuously, and a run
whose configured formats yield no downloaded artifact proceeds past
validation and reports success while storing nothing. -/
theorem c9_empty_batch_vacuous (cfg : Config) (env : Env)
    (htar : cfg.formats.contains "tar.gz" = false)
    (h1 : check_disk_space env.availBytes 100 = true)
    (h2 : env.connectOk = true)
    (hopen : env.openExc = none) (hadd : env.addExc = none)
    (hcommit : env.commitExc = none) (hpush : env.pushExc = none) :
    validate_backup_files (download_config cfg env).files = true ∧
    (run_backup cfg env false).success = true ∧
    (run_backup cfg env false).stored = [] := by
  have hdl : download_config cfg env = ⟨true, false, []⟩ := by
    unfold download_config
    rw [htar]
    rfl
  have hval : validate_backup_files (download_config cfg env).files = true := by
    rw [hdl]; rfl
  have hr := git_not_raised_of_ok cfg env hopen hadd hcommit
    (by rw [hpush]; intro hx; cases hx)
  have hrb := run_backup_reaches_git cfg env h1 h2 (by rw [hdl]) hval
  refine ⟨hval, ?_, ?_⟩ <;> rw [hrb] <;> simp [hr, hdl, save_to_repo]

/-- Claim C9 witness: a run configured with only the disabled `cfg`
format succeeds and stores nothing. -/
theorem c9_empty_batch_vacuous_witness :
    validate_backup_files (download_config c9Cfg baseEnv).files = true ∧
    (run_backup c9Cfg baseEnv false).success = true ∧
    (run_backup c9Cfg baseEnv false).stored = [] :=
  c9_empty_batch_vacuous c9Cfg baseEnv (by decide) (by decide) (by decide)
    rfl rfl rfl rfl

/-- Claim C10: the retention pass contains its errors: a failure of
the directory scan is caught and the function returns 0 with the tree
untouched — the same count as when no file is eligible — and a
per-file removal failure leaves that file in place without stopping
the processing of the remaining files. -/
theorem c10_retention_error_containment (cfg : Config) (env : Env)
    (tm : Bool) (cutoff : Int) (uf : String → Bool) (f : String)
    (rest : List String) :
    (env.scanFails = true → cleanup_old_backups cfg env tm = (0, env.tree)) ∧
    (uf f = true →
      cleanupFiles false cutoff uf (f :: rest) =
        ((cleanupFiles false cutoff uf rest).1,
          f :: (cleanupFiles false cutoff uf rest).2)) := by
  constructor
  · intro h
    unfold cleanup_old_backups
    rw [h]
    simp
  · intro huf
    simp only [cleanupFiles]
    cases hm : matchesBackupGlob f
    · simp
    · cases hp : parseBackupFileDate f with
      | none => simp [processFile, hp]
      | some v =>
        obtain ⟨y, m, d⟩ := v
        by_cases hlt : (daysFromCivil y m d : Int) * 86400 < cutoff
        · simp [processFile, hp, hlt, huf]
        · simp [processFile, hp, hlt]

/-- Claim C10 witness: a failed scan over the C1 tree returns 0 with
the tree unchanged, and a file whose removal fails is kept while the
rest of the list is processed. -/
theorem c10_retention_error_containment_witness :
    cleanup_old_backups c1Cfg c10Env false = (0, c10Env.tree) ∧
    cleanupFiles false 0 (fun _ => true) ["backup-x"] =
      ((cleanupFiles false 0 (fun _ => true) []).1,
        "backup-x" :: (cleanupFiles false 0 (fun _ => true) []).2) :=
  ⟨(c10_retention_error_containment c1Cfg c10Env false 0 (fun _ => true)
      "backup-x" []).1 rfl,
   (c10_retention_error_containment c1Cfg c10Env false 0 (fun _ => true)
      "backup-x" []).2 rfl⟩
